import Mathlib

/-!
# Verification of the promotional-products chat backend

A shallow embedding of `src/app/api/chat/route.ts` (the canonical, most
complete variant of the chat endpoint): the CSV row parser, the precise
(first-tier) and vector/semantic (second-tier) search functions over the
promo and suitup datasets, the result formatters, the hybrid
search-and-format orchestration, and the per-message conversation handler
of the `POST` endpoint.

Modelling conventions:
* JavaScript strings are Lean `String`s; the handful of string builtins the
  code uses (`split` on a one-character separator, `trim`, `toLowerCase`,
  `includes`, `String.prototype.length`) are re-implemented structurally
  over `List Char` so that every definition evaluates in the kernel.
  `toLowerCase` is modelled on ASCII letters (all tokens the code compares
  against are ASCII).
* JavaScript numbers are modelled exactly as decimal fractions
  (`DecNum`: an integer mantissa over a power of ten), not as IEEE
  binary floats; `parseFloat`/`parseInt` are modelled as their
  longest-valid-prefix decimal parses, with `NaN` represented by `none`
  (every use in the code immediately branches on the NaN and zero cases, and
  `Infinity` inputs behave identically to `none` in every predicate of
  this file). `parseInt`'s hexadecimal `0x` prefix form never arises here
  and is not modelled.
* Effects are made explicit: reading a dataset file is an
  `Option String` argument (`none` = `readFileSync` threw), a completion
  call to the language-model endpoint is an `Except Unit (Option String)`
  argument (`.error` = the call threw, `.ok none` = a reply with null
  content), and the surrounding `try/catch` blocks of the source appear as
  an `Except`-valued core (`...E`) plus a catching wrapper.
* `Math.random`-based id generation is nondeterministic; fresh ids arrive
  as explicit `String` arguments.
-/

/-- The characters matched by the JavaScript `\s` regexp class and removed
by `String.prototype.trim` (restricted to the ASCII range; the datasets and
tokens involved are ASCII). -/
def jsWhitespace (c : Char) : Bool :=
  c = ' ' || c = '\t' || c = '\n' || c = '\r' || c = '\x0b' || c = '\x0c'

/-- JavaScript `String.prototype.split` with a one-character separator, on
character lists: always returns at least one (possibly empty) piece. -/
def splitCharList (sep : Char) : List Char → List (List Char)
  | [] => [[]]
  | c :: cs =>
    match splitCharList sep cs with
    | [] => [[]]
    | cur :: rest => if c = sep then [] :: cur :: rest else (c :: cur) :: rest

/-- JavaScript `s.split(sep)` for a one-character separator. -/
def jsSplit (s : String) (sep : Char) : List String :=
  (splitCharList sep s.toList).map String.mk

/-- JavaScript `String.prototype.trim`. -/
def jsTrim (s : String) : String :=
  String.mk (((s.toList.dropWhile jsWhitespace).reverse.dropWhile jsWhitespace).reverse)

/-- JavaScript `String.prototype.toLowerCase`, on the ASCII range. -/
def jsToLower (s : String) : String :=
  String.mk (s.toList.map Char.toLower)

/-- Whether `pat` occurs as a contiguous sublist of the second list. -/
def hasSublist (pat : List Char) : List Char → Bool
  | [] => pat.isEmpty
  | c :: cs => List.isPrefixOf pat (c :: cs) || hasSublist pat cs

/-- JavaScript `s.includes(pat)`. -/
def jsIncludes (s pat : String) : Bool :=
  hasSublist pat.toList s.toList

/-- The numeric value of a list of decimal digit characters. -/
def digitsVal (ds : List Char) : Nat :=
  ds.foldl (fun a c => a * 10 + (c.toNat - 48)) 0

/-- An exact decimal number: the value `num / 10 ^ den10`.  This models the
JavaScript numbers produced by `parseFloat`/`parseInt` in the code (which
are decimal literals) without IEEE rounding. -/
structure DecNum where
  num : Int
  den10 : Nat
deriving DecidableEq, Repr

/-- The JavaScript comparison `a <= b` on modelled numbers. -/
def DecNum.ble (a b : DecNum) : Bool :=
  a.num * (10 : Int) ^ b.den10 ≤ b.num * (10 : Int) ^ a.den10

/-- The JavaScript comparison `a < b` on modelled numbers. -/
def DecNum.blt (a b : DecNum) : Bool :=
  a.num * (10 : Int) ^ b.den10 < b.num * (10 : Int) ^ a.den10

/-- The JavaScript test `a > 0` on modelled numbers. -/
def DecNum.isPos (a : DecNum) : Bool :=
  0 < a.num

/-- Whether the modelled number is zero (a falsy number in JavaScript). -/
def DecNum.isZero (a : DecNum) : Bool :=
  a.num = 0

/-- A natural number as a modelled JavaScript number. -/
def DecNum.ofNat (n : Nat) : DecNum :=
  ⟨(n : Int), 0⟩

/-- The signed integer value of an optional exponent suffix (after the `e`
or `E`), as parsed by JavaScript `parseFloat`; an absent digit run
contributes exponent 0 (the longest valid literal ends before the `e`). -/
def parseExpSuffix (cs : List Char) : Int :=
  let p : Int × List Char :=
    match cs with
    | '-' :: rest => (-1, rest)
    | '+' :: rest => (1, rest)
    | _ => (1, cs)
  let ds := p.2.takeWhile Char.isDigit
  if ds.isEmpty then 0 else p.1 * (digitsVal ds : Int)

/-- Model of JavaScript `parseFloat`: skip leading whitespace, read an
optional sign, a digit run, an optional fractional digit run, and an
optional exponent; `none` models `NaN` (no digits at all). -/
def parseFloatJS (s : String) : Option DecNum :=
  let cs := s.toList.dropWhile jsWhitespace
  let p : Int × List Char :=
    match cs with
    | '-' :: rest => (-1, rest)
    | '+' :: rest => (1, rest)
    | _ => (1, cs)
  let intPart := p.2.takeWhile Char.isDigit
  let cs2 := p.2.dropWhile Char.isDigit
  let q : List Char × List Char :=
    match cs2 with
    | '.' :: rest => (rest.takeWhile Char.isDigit, rest.dropWhile Char.isDigit)
    | _ => ([], cs2)
  if intPart.isEmpty && q.1.isEmpty then none
  else
    let mant : Int := p.1 * (digitsVal (intPart ++ q.1) : Int)
    let expVal : Int :=
      match q.2 with
      | 'e' :: rest => parseExpSuffix rest
      | 'E' :: rest => parseExpSuffix rest
      | _ => 0
    let e : Int := expVal - (q.1.length : Int)
    if 0 ≤ e then some ⟨mant * (10 : Int) ^ e.toNat, 0⟩
    else some ⟨mant, (-e).toNat⟩

/-- Model of JavaScript `parseInt` (decimal): skip leading whitespace, read
an optional sign and a digit run; `none` models `NaN`. -/
def parseIntJS (s : String) : Option Int :=
  let cs := s.toList.dropWhile jsWhitespace
  let p : Int × List Char :=
    match cs with
    | '-' :: rest => (-1, rest)
    | '+' :: rest => (1, rest)
    | _ => (1, cs)
  let ds := p.2.takeWhile Char.isDigit
  if ds.isEmpty then none else some (p.1 * (digitsVal ds : Int))

/-- The `replace(/[^\d]/g, '')` of the handler: keep only decimal digits. -/
def digitsOnly (s : String) : String :=
  String.mk (s.toList.filter Char.isDigit)

/-- The `replace(/[$,\s]/g, '')` applied to price texts before parsing. -/
def stripPriceChars (s : String) : String :=
  String.mk (s.toList.filter (fun c => !(c = '$' || c = ',' || jsWhitespace c)))

/-- The first maximal run of decimal digits in a character list, if any:
the `match(/(\d+)/)` capture of the handler. -/
def firstDigitRunAux : List Char → Option String
  | [] => none
  | c :: rest =>
    if c.isDigit then some (String.mk ((c :: rest).takeWhile Char.isDigit))
    else firstDigitRunAux rest

/-- JavaScript `message.match(/(\d+)/)`: the first digit run of `s`. -/
def firstDigitRun (s : String) : Option String :=
  firstDigitRunAux s.toList

/-- The quote-aware CSV field splitter of the source (`route.ts`, the
`for (let char of line)` loop): a `"` toggles the inside-quoted-field flag
(and is not emitted), a `,` outside quotes closes the current field
(trimmed), and every other character is appended to the current field; the
final field is pushed after the loop. -/
def csvSplitAux : List Char → List String → List Char → Bool → List String
  | [], values, current, _ => values ++ [jsTrim (String.mk current)]
  | c :: cs, values, current, inQuotes =>
    if c = '"' then csvSplitAux cs values current (!inQuotes)
    else if c = ',' && !inQuotes then
      csvSplitAux cs (values ++ [jsTrim (String.mk current)]) [] inQuotes
    else csvSplitAux cs values (current ++ [c]) inQuotes

/-- One data line split into trimmed field values, honouring quotes. -/
def splitCsvLine (line : String) : List String :=
  csvSplitAux line.toList [] [] false

/-- `csvData.split('\n')` of the source. -/
def csvLines (csvData : String) : List String :=
  jsSplit csvData '\n'

/-- `lines[0].split(',').map(h => h.trim())` of the source. -/
def csvHeaders (lines : List String) : List String :=
  (jsSplit (lines.headD "") ',').map jsTrim

/-- The field named `name` of a row object built by
`headers.forEach((header, index) => row[header] = values[index] || '')`:
the value at the last index whose header equals `name` (later assignments
overwrite earlier ones), defaulting to the empty string when the value is
missing (and an absent property, which is falsy exactly like `''` in every
use the code makes of row fields). -/
def rowField (headers values : List String) (name : String) : String :=
  match (headers.enum.filter (fun p => p.2 = name)).getLast? with
  | some p => (values.get? p.1).getD ""
  | none => ""

/-- An individual promotional product as pushed by the promo searches. -/
structure PromoProduct where
  sku : String
  nombre : String
  precio : String
  descripcion : String
  categorias : String
  imagenes_url : String
deriving DecidableEq, Repr

/-- A promotional kit as pushed by the suitup searches. -/
structure KitRecord where
  nombre : String
  precio : String
  descripcion : String
  productos : String
  imagen : String
deriving DecidableEq, Repr

/-- The promo product object pushed to the results list. -/
def mkPromoProduct (headers values : List String) : PromoProduct :=
  { sku := rowField headers values "sku"
    nombre := rowField headers values "nombre"
    precio := rowField headers values "precio"
    descripcion := rowField headers values "descripcion"
    categorias := rowField headers values "categorias"
    imagenes_url := rowField headers values "imagenes_url" }

/-- The kit object pushed to the results list. -/
def mkKitRecord (headers values : List String) : KitRecord :=
  { nombre := rowField headers values "nombre"
    precio := rowField headers values "precio"
    descripcion := rowField headers values "descripcion"
    productos := rowField headers values "productos"
    imagen := rowField headers values "imagen" }

/-- The `matchesKeyword` test of `searchPromoProductsPrecise`: an empty
keyword (falsy) matches everything, otherwise a case-insensitive substring
match against name, description, or categories. -/
def promoMatchesKeyword (headers : List String) (keyword : String) (values : List String) : Bool :=
  keyword == "" ||
  jsIncludes (jsToLower (rowField headers values "nombre")) (jsToLower keyword) ||
  jsIncludes (jsToLower (rowField headers values "descripcion")) (jsToLower keyword) ||
  jsIncludes (jsToLower (rowField headers values "categorias")) (jsToLower keyword)

/-- The `matchesKeyword` test of `searchSuitUpKitsPrecise`: as for promo
products but matching the included-products field instead of categories. -/
def kitMatchesKeyword (headers : List String) (keyword : String) (values : List String) : Bool :=
  keyword == "" ||
  jsIncludes (jsToLower (rowField headers values "nombre")) (jsToLower keyword) ||
  jsIncludes (jsToLower (rowField headers values "descripcion")) (jsToLower keyword) ||
  jsIncludes (jsToLower (rowField headers values "productos")) (jsToLower keyword)

/-- The `withinBudget` test of the precise searches:
`!maxPrice || (price > 0 && price <= maxPrice)` where
`price = parseFloat(priceText.replace(/[$,\s]/g, ''))`.  A missing ceiling
and a zero ceiling are both falsy and accept everything; under a truthy
ceiling an unparseable (NaN) or non-positive price is rejected. -/
def withinBudgetJS (maxPrice : Option DecNum) (precioText : String) : Bool :=
  match maxPrice with
  | none => true
  | some m =>
    if m.isZero then true
    else
      match parseFloatJS (stripPriceChars precioText) with
      | none => false
      | some price => price.isPos && price.ble m

/-- The full push condition of `searchPromoProductsPrecise`:
`matchesKeyword && withinBudget && product.nombre`. -/
def promoRowPred (headers : List String) (keyword : String) (maxPrice : Option DecNum)
    (values : List String) : Bool :=
  promoMatchesKeyword headers keyword values &&
  withinBudgetJS maxPrice (rowField headers values "precio") &&
  rowField headers values "nombre" != ""

/-- The full push condition of `searchSuitUpKitsPrecise`. -/
def kitRowPred (headers : List String) (keyword : String) (maxPrice : Option DecNum)
    (values : List String) : Bool :=
  kitMatchesKeyword headers keyword values &&
  withinBudgetJS maxPrice (rowField headers values "precio") &&
  rowField headers values "nombre" != ""

/-- The scan loop of `searchPromoProductsPrecise`: skip blank lines
(`continue`, which bypasses the break check), push matching rows, and
`break` as soon as `products.length >= limit`. -/
def preciseLoopPromo (headers : List String) (keyword : String) (maxPrice : Option DecNum)
    (limit : Nat) : List String → List PromoProduct → List PromoProduct
  | [], products => products
  | line :: rest, products =>
    if jsTrim line = "" then preciseLoopPromo headers keyword maxPrice limit rest products
    else
      let values := splitCsvLine line
      let products' :=
        if promoRowPred headers keyword maxPrice values then
          products ++ [mkPromoProduct headers values]
        else products
      if limit ≤ products'.length then products'
      else preciseLoopPromo headers keyword maxPrice limit rest products'

/-- The scan loop of `searchSuitUpKitsPrecise`. -/
def preciseLoopKits (headers : List String) (keyword : String) (maxPrice : Option DecNum)
    (limit : Nat) : List String → List KitRecord → List KitRecord
  | [], kits => kits
  | line :: rest, kits =>
    if jsTrim line = "" then preciseLoopKits headers keyword maxPrice limit rest kits
    else
      let values := splitCsvLine line
      let kits' :=
        if kitRowPred headers keyword maxPrice values then
          kits ++ [mkKitRecord headers values]
        else kits
      if limit ≤ kits'.length then kits'
      else preciseLoopKits headers keyword maxPrice limit rest kits'

/-- The body of `searchPromoProductsPrecise` up to its `try`: reads
`airtable/promo.csv` (the `Option String` argument; `none` means
`readFileSync` threw), takes the header line, and scans data lines
`1 ≤ i < Math.min(lines.length, 200)`. -/
def searchPromoProductsPreciseE (csvData : Option String) (keyword : String)
    (maxPrice : Option DecNum) (limit : Nat) : Except Unit (List PromoProduct) :=
  match csvData with
  | none => .error ()
  | some data =>
    let lines := csvLines data
    let headers := csvHeaders lines
    .ok (preciseLoopPromo headers keyword maxPrice limit ((lines.take 200).drop 1) [])

/-- The `catch` of the source search functions: any error becomes `[]`. -/
def catchEmpty {α : Type} (e : Except Unit (List α)) : List α :=
  match e with
  | .ok r => r
  | .error _ => []

/-- `searchPromoProductsPrecise` of the source (first search tier; the
`catch` converts any failure into an empty result list). -/
def searchPromoProductsPrecise (csvData : Option String) (keyword : String)
    (maxPrice : Option DecNum) (limit : Nat) : List PromoProduct :=
  catchEmpty (searchPromoProductsPreciseE csvData keyword maxPrice limit)

/-- The body of `searchSuitUpKitsPrecise` up to its `try`: reads
`airtable/suitup.csv` and scans data lines `1 ≤ i < Math.min(lines.length, 100)`. -/
def searchSuitUpKitsPreciseE (csvData : Option String) (keyword : String)
    (maxPrice : Option DecNum) (limit : Nat) : Except Unit (List KitRecord) :=
  match csvData with
  | none => .error ()
  | some data =>
    let lines := csvLines data
    let headers := csvHeaders lines
    .ok (preciseLoopKits headers keyword maxPrice limit ((lines.take 100).drop 1) [])

/-- `searchSuitUpKitsPrecise` of the source. -/
def searchSuitUpKitsPrecise (csvData : Option String) (keyword : String)
    (maxPrice : Option DecNum) (limit : Nat) : List KitRecord :=
  catchEmpty (searchSuitUpKitsPreciseE csvData keyword maxPrice limit)

/-- The candidate rows collected by `searchPromoProductsVector` before the
completion call: data lines `1 ≤ i < Math.min(lines.length, 50)`, blank
lines skipped, rows with a falsy name skipped.  (The source also builds a
`text` string per candidate for the prompt; the prompt is consumed by the
external completion endpoint and does not affect the returned records.) -/
def promoCandidates (data : String) : List PromoProduct :=
  let lines := csvLines data
  let headers := csvHeaders lines
  ((lines.take 50).drop 1).filterMap (fun line =>
    if jsTrim line = "" then none
    else
      let values := splitCsvLine line
      let product := mkPromoProduct headers values
      if product.nombre = "" then none else some product)

/-- The candidate rows collected by `searchSuitUpKitsVector`: data lines
`1 ≤ i < Math.min(lines.length, 30)`. -/
def suitupCandidates (data : String) : List KitRecord :=
  let lines := csvLines data
  let headers := csvHeaders lines
  ((lines.take 30).drop 1).filterMap (fun line =>
    if jsTrim line = "" then none
    else
      let values := splitCsvLine line
      let kit := mkKitRecord headers values
      if kit.nombre = "" then none else some kit)

/-- The reply parser of the vector searches:
`content?.split(',').map(n => parseInt(n.trim())).filter(n => !isNaN(n)) || []`.
A null content yields `[]`; otherwise split on commas, trim, parse each
token as an integer, and discard unparseable tokens. -/
def parseIndexReply (content : Option String) : List Int :=
  match content with
  | none => []
  | some c => (jsSplit c ',').filterMap (fun tok => parseIntJS (jsTrim tok))

/-- JavaScript array indexing `l[idx]` with a possibly out-of-range or
negative index: `none` models `undefined`. -/
def jsIndex {α : Type} (l : List α) (idx : Int) : Option α :=
  if idx < 0 then none else l.get? idx.toNat

/-- The local post-parse price filter of the vector searches:
`if (maxPrice) { const price = parseFloat(...); if (price > 0 && price > maxPrice) return null; }`.
A record is dropped only when the ceiling is truthy and its parsed price is
positive and strictly above the ceiling; an unparseable (NaN) or zero price
is never dropped here. -/
def vectorPriceDrop (maxPrice : Option DecNum) (precioText : String) : Bool :=
  match maxPrice with
  | none => false
  | some m =>
    if m.isZero then false
    else
      match parseFloatJS (stripPriceChars precioText) with
      | none => false
      | some price => price.isPos && m.blt price

/-- The body of `searchPromoProductsVector` up to its `try`: read the
dataset (`none` = `readFileSync` threw), collect candidates, make one
completion call (`.error` = the call threw; `.ok content` = its reply
content, possibly null), parse the index reply, drop out-of-range indices
(`undefined` candidates) and price-filtered records.  `keyword` and
`limit` only shape the prompt sent to the external endpoint; the code
never truncates the parsed result to `limit`. -/
def searchPromoProductsVectorE (csvData : Option String)
    (completion : Except Unit (Option String)) (keyword : String)
    (maxPrice : Option DecNum) (limit : Nat) : Except Unit (List PromoProduct) :=
  match csvData with
  | none => .error ()
  | some data =>
    let _ := keyword
    let _ := limit
    let candidates := promoCandidates data
    match completion with
    | .error e => .error e
    | .ok content =>
      let matchList := parseIndexReply content
      .ok (matchList.filterMap (fun index =>
        match jsIndex candidates index with
        | none => none
        | some product =>
          if vectorPriceDrop maxPrice product.precio then none else some product))

/-- `searchPromoProductsVector` of the source (second search tier). -/
def searchPromoProductsVector (csvData : Option String)
    (completion : Except Unit (Option String)) (keyword : String)
    (maxPrice : Option DecNum) (limit : Nat) : List PromoProduct :=
  catchEmpty (searchPromoProductsVectorE csvData completion keyword maxPrice limit)

/-- The body of `searchSuitUpKitsVector` up to its `try`. -/
def searchSuitUpKitsVectorE (csvData : Option String)
    (completion : Except Unit (Option String)) (keyword : String)
    (maxPrice : Option DecNum) (limit : Nat) : Except Unit (List KitRecord) :=
  match csvData with
  | none => .error ()
  | some data =>
    let _ := keyword
    let _ := limit
    let candidates := suitupCandidates data
    match completion with
    | .error e => .error e
    | .ok content =>
      let matchList := parseIndexReply content
      .ok (matchList.filterMap (fun index =>
        match jsIndex candidates index with
        | none => none
        | some kit =>
          if vectorPriceDrop maxPrice kit.precio then none else some kit))

/-- `searchSuitUpKitsVector` of the source. -/
def searchSuitUpKitsVector (csvData : Option String)
    (completion : Except Unit (Option String)) (keyword : String)
    (maxPrice : Option DecNum) (limit : Nat) : List KitRecord :=
  catchEmpty (searchSuitUpKitsVectorE csvData completion keyword maxPrice limit)

/-- One numbered entry of `formatProductResults`. -/
def formatProductEntry (indexed : Nat × PromoProduct) : String :=
  toString (indexed.1 + 1) ++ ". **" ++ indexed.2.nombre ++ "**\n" ++
  "   • Precio: " ++ indexed.2.precio ++ "\n" ++
  "   • Descripción: " ++ indexed.2.descripcion ++ "\n" ++
  (if indexed.2.categorias != "" then "   • Categoría: " ++ indexed.2.categorias ++ "\n" else "") ++
  "\n"

/-- `formatProductResults` of the source: deterministic text templating of
a product list. -/
def formatProductResults (products : List PromoProduct) : String :=
  if products.length = 0 then
    "No encontré productos que coincidan con tu búsqueda. ¿Podrías describir lo que necesitas de manera diferente?"
  else
    "Encontré " ++ toString products.length ++ " productos que podrían interesarte:\n\n" ++
    String.join (products.enum.map formatProductEntry) ++
    "¿Te interesa alguno de estos productos? ¿O prefieres que busque algo más específico?"

/-- One numbered entry of `formatKitResults`. -/
def formatKitEntry (indexed : Nat × KitRecord) : String :=
  toString (indexed.1 + 1) ++ ". **" ++ indexed.2.nombre ++ "**\n" ++
  "   • Precio: " ++ indexed.2.precio ++ "\n" ++
  "   • Descripción: " ++ indexed.2.descripcion ++ "\n" ++
  (if indexed.2.productos != "" then "   • Incluye: " ++ indexed.2.productos ++ "\n" else "") ++
  "\n"

/-- `formatKitResults` of the source. -/
def formatKitResults (kits : List KitRecord) : String :=
  if kits.length = 0 then
    "No encontré kits que coincidan con tu búsqueda. ¿Podrías describir lo que necesitas de manera diferente?"
  else
    "Encontré " ++ toString kits.length ++ " kits que podrían interesarte:\n\n" ++
    String.join (kits.enum.map formatKitEntry) ++
    "¿Te interesa alguno de estos kits? ¿O prefieres que busque algo más específico?"

/-- The fixed localized no-results reply of `searchAndFormatProducts`. -/
def noProductsMessage : String :=
  "No se encontraron productos que coincidan con los criterios de búsqueda."

/-- The fixed localized no-results reply of `searchAndFormatKits`. -/
def noKitsMessage : String :=
  "No se encontraron kits que coincidan con los criterios de búsqueda."

/-- `searchAndFormatProducts` of the source (hybrid retrieval): precise
search first; if it found anything, format and return (the completion
argument is not consumed); otherwise fall back to the vector search; if
that is also empty, return the fixed no-results message. -/
def searchAndFormatProducts (csvData : Option String)
    (completion : Except Unit (Option String)) (keyword : String)
    (maxPrice : Option DecNum) (limit : Nat) : String :=
  let preciseResults := searchPromoProductsPrecise csvData keyword maxPrice limit
  if 0 < preciseResults.length then formatProductResults preciseResults
  else
    let vectorResults := searchPromoProductsVector csvData completion keyword maxPrice limit
    if 0 < vectorResults.length then formatProductResults vectorResults
    else noProductsMessage

/-- `searchAndFormatKits` of the source. -/
def searchAndFormatKits (csvData : Option String)
    (completion : Except Unit (Option String)) (keyword : String)
    (maxPrice : Option DecNum) (limit : Nat) : String :=
  let preciseResults := searchSuitUpKitsPrecise csvData keyword maxPrice limit
  if 0 < preciseResults.length then formatKitResults preciseResults
  else
    let vectorResults := searchSuitUpKitsVector csvData completion keyword maxPrice limit
    if 0 < vectorResults.length then formatKitResults vectorResults
    else noKitsMessage

/-- The dataset flavour handled by `csvToJsonl`. -/
inductive ProductType where
  | promo
  | suitup
deriving DecidableEq, Repr

/-- A document built by `csvToJsonl`: the searchable text plus metadata
(the union of the promo and suitup metadata shapes; unused fields are empty
for the other flavour, exactly as `row.x || ''` produces). -/
structure JsonlDoc where
  text : String
  sku : String
  nombre : String
  descripcion : String
  categorias : String
  precio : String
  imagenes_url : String
  productos : String
  imagen : String
deriving DecidableEq, Repr

/-- The document built for one promo row. -/
def mkPromoDoc (headers values : List String) : JsonlDoc :=
  { text := "Producto: " ++ rowField headers values "nombre" ++ " - " ++
      rowField headers values "descripcion" ++ " - Categoría: " ++
      rowField headers values "categorias" ++ " - Precio: " ++
      rowField headers values "precio" ++ " - SKU: " ++ rowField headers values "sku"
    sku := rowField headers values "sku"
    nombre := rowField headers values "nombre"
    descripcion := rowField headers values "descripcion"
    categorias := rowField headers values "categorias"
    precio := rowField headers values "precio"
    imagenes_url := rowField headers values "imagenes_url"
    productos := ""
    imagen := "" }

/-- The document built for one suitup row. -/
def mkSuitupDoc (headers values : List String) : JsonlDoc :=
  { text := "Kit: " ++ rowField headers values "nombre" ++ " - " ++
      rowField headers values "descripcion" ++ " - Productos incluidos: " ++
      rowField headers values "productos" ++ " - Precio: " ++
      rowField headers values "precio"
    sku := ""
    nombre := rowField headers values "nombre"
    descripcion := rowField headers values "descripcion"
    categorias := ""
    precio := rowField headers values "precio"
    imagenes_url := ""
    productos := rowField headers values "productos"
    imagen := rowField headers values "imagen" }

/-- `csvToJsonl` of the source, applied to already-read table text: split
into lines, take the header row, and for every non-blank data line build a
row object from the quote-aware field split; rows whose mandatory name
field is falsy are skipped. -/
def csvToJsonl (csvData : String) (productType : ProductType) : List JsonlDoc :=
  let lines := csvLines csvData
  let headers := csvHeaders lines
  (lines.drop 1).filterMap (fun line =>
    if jsTrim line = "" then none
    else
      let values := splitCsvLine line
      if rowField headers values "nombre" = "" then none
      else
        match productType with
        | .promo => some (mkPromoDoc headers values)
        | .suitup => some (mkSuitupDoc headers values))

/-- One entry of the conversation's message log. -/
structure ChatMessage where
  content : String
  agent : String
deriving DecidableEq, Repr

/-- One entry of the conversation's event log. -/
structure ChatEvent where
  id : String
  type : String
  agent : String
  content : String
deriving DecidableEq, Repr

/-- The mutable per-conversation context (`ConversationContext` of the
source); `none` models `null`. -/
structure ConversationContext where
  business_unit : Option String
  customer_name : Option String
  selected_products : List String
  descripcion : Option String
  precio : Option String
deriving DecidableEq, Repr

/-- The stored conversation (`ConversationState` of the source). -/
structure ConversationState where
  conversation_id : String
  current_agent : String
  context : ConversationContext
  messages : List ChatMessage
  events : List ChatEvent
deriving DecidableEq, Repr

/-- JavaScript falsiness of a nullable string slot: `null` (here `none`)
and the empty string are falsy. -/
def jsFalsyOptStr (s : Option String) : Bool :=
  match s with
  | none => true
  | some v => v == ""

/-- The conversation created for an unknown or absent conversation id. -/
def initialConversation (convId eventId : String) : ConversationState :=
  { conversation_id := convId
    current_agent := "Triage Agent"
    context :=
      { business_unit := none
        customer_name := none
        selected_products := []
        descripcion := none
        precio := none }
    messages := []
    events := [{ id := eventId, type := "message", agent := "Triage Agent",
                 content := "Agent initialized" }] }

/-- The fixed welcome reply of the Promoselect selection branch. -/
def welcomePromoselect : String :=
  "¡Perfecto! Ahora te ayudo a encontrar productos promocionales individuales. ¿Qué tipo de producto estás buscando? Por ejemplo: camisetas, bolígrafos, tazas, etc."

/-- The fixed welcome reply of the SuitUp selection branch. -/
def welcomeSuitup : String :=
  "¡Excelente! Te ayudo a encontrar kits de productos promocionales. ¿Qué tipo de kit necesitas? Por ejemplo: kit ejecutivo, kit de bienvenida, kit de eventos, etc."

/-- The fallback dialogue reply when the completion content is null. -/
def fallbackReply : String :=
  "Lo siento, no pude procesar tu mensaje."

/-- The number of language-model completion calls the promo hybrid path
performs: the vector search is reached only when the precise search is
empty, and its completion call is issued only after the dataset file read
succeeds. -/
def hybridCallsProducts (csvData : Option String) (keyword : String)
    (maxPrice : Option DecNum) (limit : Nat) : Nat :=
  if (searchPromoProductsPrecise csvData keyword maxPrice limit).length = 0 then
    match csvData with
    | none => 0
    | some _ => 1
  else 0

/-- The number of completion calls the kit hybrid path performs. -/
def hybridCallsKits (csvData : Option String) (keyword : String)
    (maxPrice : Option DecNum) (limit : Nat) : Nat :=
  if (searchSuitUpKitsPrecise csvData keyword maxPrice limit).length = 0 then
    match csvData with
    | none => 0
    | some _ => 1
  else 0

/-- The slot-extraction fallback of the free-form branch: store the whole
message as the description if the description slot is falsy and the
message is longer than 3, then store the first digit run as the budget if
the budget slot is falsy and the message contains one. -/
def extractSlots (context : ConversationContext) (message : String) : ConversationContext :=
  let context :=
    if jsFalsyOptStr context.descripcion && decide (3 < message.length) then
      { context with descripcion := some message }
    else context
  match firstDigitRun message with
  | none => context
  | some run =>
    if jsFalsyOptStr context.precio then { context with precio := some run }
    else context

/-- The per-message body of `POST` after the new-conversation block: the
unit-selection branches, then the free-form branch (one dialogue completion
call; if all three of business unit, description and budget were already
truthy, the dialogue reply is discarded in favour of the hybrid search
output, otherwise slots are extracted from the raw message), and the final
append of the reply to the message log.  Returns the updated conversation
and the number of completion calls made.  Arguments: the two dataset reads,
the dialogue completion content, the vector-search completion outcome, and
the fresh id used for an appended event. -/
def handleSelectionOrChat (promoCsv suitupCsv : Option String)
    (dialogue : Option String) (semCompletion : Except Unit (Option String))
    (eventId : String) (conversation : ConversationState) (message : String) :
    ConversationState × Nat :=
  if jsIncludes (jsToLower message) "promoselect" then
    ({ conversation with
        context := { conversation.context with business_unit := some "promoselect" }
        current_agent := "Promoselect Agent"
        messages := conversation.messages ++
          [{ content := welcomePromoselect, agent := "Promoselect Agent" }]
        events := conversation.events ++
          [{ id := eventId, type := "handoff", agent := "Promoselect Agent",
             content := "Switched to Promoselect Agent" }] }, 0)
  else if jsIncludes (jsToLower message) "suitup" then
    ({ conversation with
        context := { conversation.context with business_unit := some "suitup" }
        current_agent := "SuitUp Agent"
        messages := conversation.messages ++
          [{ content := welcomeSuitup, agent := "SuitUp Agent" }]
        events := conversation.events ++
          [{ id := eventId, type := "handoff", agent := "SuitUp Agent",
             content := "Switched to SuitUp Agent" }] }, 0)
  else
    let responseMessage := dialogue.getD fallbackReply
    if !jsFalsyOptStr conversation.context.business_unit &&
       !jsFalsyOptStr conversation.context.descripcion &&
       !jsFalsyOptStr conversation.context.precio then
      let maxPrice := parseFloatJS (digitsOnly (conversation.context.precio.getD ""))
      let descripcion := conversation.context.descripcion.getD ""
      let result : String × Nat :=
        if conversation.context.business_unit = some "promoselect" then
          (searchAndFormatProducts promoCsv semCompletion descripcion maxPrice 3,
           1 + hybridCallsProducts promoCsv descripcion maxPrice 3)
        else if conversation.context.business_unit = some "suitup" then
          (searchAndFormatKits suitupCsv semCompletion descripcion maxPrice 3,
           1 + hybridCallsKits suitupCsv descripcion maxPrice 3)
        else (responseMessage, 1)
      ({ conversation with
          messages := conversation.messages ++
            [{ content := result.1, agent := conversation.current_agent }] }, result.2)
    else
      ({ conversation with
          context := extractSlots conversation.context message
          messages := conversation.messages ++
            [{ content := responseMessage, agent := conversation.current_agent }] }, 1)

/-- The full `POST` handler for one request, as a function of the looked-up
conversation (`none` when no conversation id was supplied or the id is
unknown): an absent conversation is initialized, and — only then — an
empty or greeting message short-circuits to the `DISPLAY_BUSINESS_SELECTOR`
sentinel with no completion call; every other case falls through to
`handleSelectionOrChat`. -/
def handleRequest (promoCsv suitupCsv : Option String)
    (dialogue : Option String) (semCompletion : Except Unit (Option String))
    (eventId newConvId newEventId : String)
    (existing : Option ConversationState) (message : String) :
    ConversationState × Nat :=
  match existing with
  | some conversation =>
    handleSelectionOrChat promoCsv suitupCsv dialogue semCompletion eventId
      conversation message
  | none =>
    let conversation := initialConversation newConvId newEventId
    if message == "" || jsIncludes (jsToLower message) "hola" ||
       jsIncludes (jsToLower message) "hello" then
      ({ conversation with
          messages := conversation.messages ++
            [{ content := "DISPLAY_BUSINESS_SELECTOR", agent := "Triage Agent" }] }, 0)
    else
      handleSelectionOrChat promoCsv suitupCsv dialogue semCompletion eventId
        conversation message

/-- The per-request inputs that vary along a conversation: the incoming
message, the dialogue completion content, the vector-search completion
outcome, and the fresh event id. -/
structure StepInput where
  message : String
  dialogue : Option String
  semCompletion : Except Unit (Option String)
  eventId : String

/-- The state reached by a conversation created by the request `first` and
then updated by the requests `rest`, with fixed dataset reads. -/
def runConversation (promoCsv suitupCsv : Option String) (newConvId newEventId : String)
    (first : StepInput) (rest : List StepInput) : ConversationState :=
  rest.foldl
    (fun st inp =>
      (handleRequest promoCsv suitupCsv inp.dialogue inp.semCompletion inp.eventId
        newConvId newEventId (some st) inp.message).1)
    (handleRequest promoCsv suitupCsv first.dialogue first.semCompletion first.eventId
      newConvId newEventId none first.message).1

/-- C1: Hybrid Retrieval runs the Precise Matcher first; when it is
non-empty its formatting is returned and the result does not depend on the
semantic completion (the Semantic Matcher is never invoked); when both
tiers are empty the fixed localized no-results message is returned —
for products and for kits. -/
theorem hybrid_precise_first :
    ∀ (promoCsv suitupCsv : Option String)
      (completion completion' : Except Unit (Option String))
      (keyword : String) (maxPrice : Option DecNum) (limit : Nat),
    (0 < (searchPromoProductsPrecise promoCsv keyword maxPrice limit).length →
      searchAndFormatProducts promoCsv completion keyword maxPrice limit =
        formatProductResults (searchPromoProductsPrecise promoCsv keyword maxPrice limit) ∧
      searchAndFormatProducts promoCsv completion keyword maxPrice limit =
        searchAndFormatProducts promoCsv completion' keyword maxPrice limit) ∧
    ((searchPromoProductsPrecise promoCsv keyword maxPrice limit).length = 0 →
      (searchPromoProductsVector promoCsv completion keyword maxPrice limit).length = 0 →
      searchAndFormatProducts promoCsv completion keyword maxPrice limit = noProductsMessage) ∧
    (0 < (searchSuitUpKitsPrecise suitupCsv keyword maxPrice limit).length →
      searchAndFormatKits suitupCsv completion keyword maxPrice limit =
        formatKitResults (searchSuitUpKitsPrecise suitupCsv keyword maxPrice limit) ∧
      searchAndFormatKits suitupCsv completion keyword maxPrice limit =
        searchAndFormatKits suitupCsv completion' keyword maxPrice limit) ∧
    ((searchSuitUpKitsPrecise suitupCsv keyword maxPrice limit).length = 0 →
      (searchSuitUpKitsVector suitupCsv completion keyword maxPrice limit).length = 0 →
      searchAndFormatKits suitupCsv completion keyword maxPrice limit = noKitsMessage) := by
  intro promoCsv suitupCsv completion completion' keyword maxPrice limit
  refine ⟨fun h => ?_, fun h1 h2 => ?_, fun h => ?_, fun h1 h2 => ?_⟩
  · constructor <;> simp only [searchAndFormatProducts, if_pos h]
  · simp only [searchAndFormatProducts, h1, h2]
    simp
  · constructor <;> simp only [searchAndFormatKits, if_pos h]
  · simp only [searchAndFormatKits, h1, h2]
    simp

set_option maxRecDepth 100000 in
/-- Spot instance of `hybrid_precise_first`: a dataset where the precise
tier matches (the hybrid reply is its formatting), and a failed read where
both tiers are empty (the hybrid reply is the fixed no-results message). -/
theorem hybrid_precise_first_spot :
    searchAndFormatProducts (some "nombre,precio\nTaza,$100") (.ok (some "0")) "" none 3 =
      formatProductResults (searchPromoProductsPrecise (some "nombre,precio\nTaza,$100") "" none 3) ∧
    searchAndFormatKits none (.ok none) "kit" none 3 = noKitsMessage :=
  ⟨((hybrid_precise_first (some "nombre,precio\nTaza,$100") none (.ok (some "0")) (.ok none) ""
      none 3).1 (by decide)).1,
   (hybrid_precise_first none none (.ok none) (.ok none) "kit" none 3).2.2.2
     (by decide) (by decide)⟩

/-- C9: every matcher-level failure (a dataset read that throws) and every
completion-call failure (the call throws, or its reply has null content) is
absorbed inside the search function that encountered it: the
`Except`-valued cores error exactly there, and the public search functions
catch the error and return the empty result list instead of propagating. -/
theorem search_failures_absorbed :
    ∀ (completion : Except Unit (Option String)) (data keyword : String)
      (maxPrice : Option DecNum) (limit : Nat),
    (searchPromoProductsPreciseE none keyword maxPrice limit = .error () ∧
     searchPromoProductsPrecise none keyword maxPrice limit = []) ∧
    (searchSuitUpKitsPreciseE none keyword maxPrice limit = .error () ∧
     searchSuitUpKitsPrecise none keyword maxPrice limit = []) ∧
    (searchPromoProductsVectorE none completion keyword maxPrice limit = .error () ∧
     searchPromoProductsVector none completion keyword maxPrice limit = []) ∧
    (searchPromoProductsVectorE (some data) (.error ()) keyword maxPrice limit = .error () ∧
     searchPromoProductsVector (some data) (.error ()) keyword maxPrice limit = []) ∧
    (searchPromoProductsVector (some data) (.ok none) keyword maxPrice limit = []) ∧
    (searchSuitUpKitsVectorE none completion keyword maxPrice limit = .error () ∧
     searchSuitUpKitsVector none completion keyword maxPrice limit = []) ∧
    (searchSuitUpKitsVectorE (some data) (.error ()) keyword maxPrice limit = .error () ∧
     searchSuitUpKitsVector (some data) (.error ()) keyword maxPrice limit = []) ∧
    (searchSuitUpKitsVector (some data) (.ok none) keyword maxPrice limit = []) := by
  intro completion data keyword maxPrice limit
  refine ⟨⟨rfl, rfl⟩, ⟨rfl, rfl⟩, ⟨rfl, rfl⟩, ⟨rfl, rfl⟩, rfl, ⟨rfl, rfl⟩, ⟨rfl, rfl⟩, rfl⟩

/-- C7 (amended): the vector searches parse the completion reply by
splitting on commas, trimming, integer-parsing and discarding unparseable
tokens; every returned record comes from a parsed index that is in range
of the candidate list (out-of-range indices are dropped); and the result
length is bounded by the number of parsed tokens, which is bounded by the
number of comma-separated pieces of the reply — but the code never
truncates the result to `limit`. -/
theorem vector_reply_parsing :
    ∀ (data : String) (content : Option String) (keyword : String)
      (maxPrice : Option DecNum) (limit : Nat),
    ((searchPromoProductsVector (some data) (.ok content) keyword maxPrice limit).length ≤
      (parseIndexReply content).length) ∧
    ((searchSuitUpKitsVector (some data) (.ok content) keyword maxPrice limit).length ≤
      (parseIndexReply content).length) ∧
    ((parseIndexReply content).length ≤ (jsSplit (content.getD "") ',').length) ∧
    (∀ product ∈ searchPromoProductsVector (some data) (.ok content) keyword maxPrice limit,
      ∃ index ∈ parseIndexReply content,
        jsIndex (promoCandidates data) index = some product) ∧
    (∀ kit ∈ searchSuitUpKitsVector (some data) (.ok content) keyword maxPrice limit,
      ∃ index ∈ parseIndexReply content,
        jsIndex (suitupCandidates data) index = some kit) := by
  intro data content keyword maxPrice limit
  refine ⟨?_, ?_, ?_, ?_, ?_⟩
  · exact List.length_filterMap_le _ _
  · exact List.length_filterMap_le _ _
  · cases content with
    | none => simp [parseIndexReply]
    | some c => exact List.length_filterMap_le _ _
  · intro product hmem
    rcases List.mem_filterMap.mp hmem with ⟨index, hidx, hf⟩
    refine ⟨index, hidx, ?_⟩
    cases h : jsIndex (promoCandidates data) index with
    | none => rw [h] at hf; exact absurd hf (by simp)
    | some q =>
      rw [h] at hf
      have hq : (if vectorPriceDrop maxPrice q.precio = true then none else some q) =
          some product := hf
      by_cases hd : vectorPriceDrop maxPrice q.precio = true
      · rw [if_pos hd] at hq; exact absurd hq (by simp)
      · rw [if_neg hd] at hq; exact hq
  · intro kit hmem
    rcases List.mem_filterMap.mp hmem with ⟨index, hidx, hf⟩
    refine ⟨index, hidx, ?_⟩
    cases h : jsIndex (suitupCandidates data) index with
    | none => rw [h] at hf; exact absurd hf (by simp)
    | some q =>
      rw [h] at hf
      have hq : (if vectorPriceDrop maxPrice q.precio = true then none else some q) =
          some kit := hf
      by_cases hd : vectorPriceDrop maxPrice q.precio = true
      · rw [if_pos hd] at hq; exact absurd hq (by simp)
      · rw [if_neg hd] at hq; exact hq

set_option maxRecDepth 400000 in
/-- Spot instance of `vector_reply_parsing`: on a concrete dataset and
reply, each parsed in-range index contributes its candidate record. -/
theorem vector_reply_parsing_spot :
    ∃ index ∈ parseIndexReply (some "1"),
      jsIndex (promoCandidates "nombre,precio\nA,1\nB,2") index =
        some { sku := "", nombre := "B", precio := "2", descripcion := "",
               categorias := "", imagenes_url := "" } :=
  (vector_reply_parsing "nombre,precio\nA,1\nB,2" (some "1") "x" none 3).2.2.2.1
    { sku := "", nombre := "B", precio := "2", descripcion := "",
      categorias := "", imagenes_url := "" } (by decide)

set_option maxRecDepth 400000 in
/-- C7 counterexample: with `limit = 3`, a reply naming four valid in-range
indices makes the vector search return four records — the claimed
`≤ limit` bound is false because the code never truncates to `limit`. -/
theorem vector_limit_counterexample :
    3 < (searchPromoProductsVector (some "nombre,precio\nA,1\nB,2\nC,3\nD,4")
      (.ok (some "0,1,2,3")) "x" none 3).length := by decide

/-- Every record produced by the promo precise-scan loop either was in the
accumulator already or is the row object of a scanned row satisfying the
full push condition. -/
theorem mem_preciseLoopPromo (headers : List String) (keyword : String)
    (maxPrice : Option DecNum) (limit : Nat) :
    ∀ (lines : List String) (acc : List PromoProduct) (product : PromoProduct),
    product ∈ preciseLoopPromo headers keyword maxPrice limit lines acc →
    product ∈ acc ∨ ∃ values, promoRowPred headers keyword maxPrice values = true ∧
      product = mkPromoProduct headers values := by
  intro lines
  induction lines with
  | nil => intro acc product h; exact Or.inl h
  | cons line rest ih =>
    intro acc product h
    simp only [preciseLoopPromo] at h
    by_cases hb : jsTrim line = ""
    · rw [if_pos hb] at h
      exact ih acc product h
    · rw [if_neg hb] at h
      by_cases hp : promoRowPred headers keyword maxPrice (splitCsvLine line) = true
      · simp only [if_pos hp] at h
        by_cases hl : limit ≤ (acc ++ [mkPromoProduct headers (splitCsvLine line)]).length
        · rw [if_pos hl] at h
          rcases List.mem_append.mp h with h1 | h1
          · exact Or.inl h1
          · exact Or.inr ⟨splitCsvLine line, hp, List.mem_singleton.mp h1⟩
        · rw [if_neg hl] at h
          rcases ih _ product h with h1 | h1
          · rcases List.mem_append.mp h1 with h2 | h2
            · exact Or.inl h2
            · exact Or.inr ⟨splitCsvLine line, hp, List.mem_singleton.mp h2⟩
          · exact Or.inr h1
      · simp only [if_neg hp] at h
        by_cases hl : limit ≤ acc.length
        · rw [if_pos hl] at h
          exact Or.inl h
        · rw [if_neg hl] at h
          exact ih acc product h

/-- Kit version of `mem_preciseLoopPromo`. -/
theorem mem_preciseLoopKits (headers : List String) (keyword : String)
    (maxPrice : Option DecNum) (limit : Nat) :
    ∀ (lines : List String) (acc : List KitRecord) (kit : KitRecord),
    kit ∈ preciseLoopKits headers keyword maxPrice limit lines acc →
    kit ∈ acc ∨ ∃ values, kitRowPred headers keyword maxPrice values = true ∧
      kit = mkKitRecord headers values := by
  intro lines
  induction lines with
  | nil => intro acc kit h; exact Or.inl h
  | cons line rest ih =>
    intro acc kit h
    simp only [preciseLoopKits] at h
    by_cases hb : jsTrim line = ""
    · rw [if_pos hb] at h
      exact ih acc kit h
    · rw [if_neg hb] at h
      by_cases hp : kitRowPred headers keyword maxPrice (splitCsvLine line) = true
      · simp only [if_pos hp] at h
        by_cases hl : limit ≤ (acc ++ [mkKitRecord headers (splitCsvLine line)]).length
        · rw [if_pos hl] at h
          rcases List.mem_append.mp h with h1 | h1
          · exact Or.inl h1
          · exact Or.inr ⟨splitCsvLine line, hp, List.mem_singleton.mp h1⟩
        · rw [if_neg hl] at h
          rcases ih _ kit h with h1 | h1
          · rcases List.mem_append.mp h1 with h2 | h2
            · exact Or.inl h2
            · exact Or.inr ⟨splitCsvLine line, hp, List.mem_singleton.mp h2⟩
          · exact Or.inr h1
      · simp only [if_neg hp] at h
        by_cases hl : limit ≤ acc.length
        · rw [if_pos hl] at h
          exact Or.inl h
        · rw [if_neg hl] at h
          exact ih acc kit h

/-- The non-blank scanned rows of a line list, as field-value lists. -/
def scannedValues (lines : List String) : List (List String) :=
  lines.filterMap (fun line => if jsTrim line = "" then none else some (splitCsvLine line))

/-- With a positive limit, the promo precise-scan loop computes exactly the
first `limit - acc.length` matching rows, in scan order, appended to the
accumulator. -/
theorem preciseLoopPromo_characterization (headers : List String) (keyword : String)
    (maxPrice : Option DecNum) (limit : Nat) :
    ∀ (lines : List String) (acc : List PromoProduct), acc.length < limit →
    preciseLoopPromo headers keyword maxPrice limit lines acc =
      acc ++ (((scannedValues lines).filter
        (promoRowPred headers keyword maxPrice)).map
          (mkPromoProduct headers)).take (limit - acc.length) := by
  intro lines
  induction lines with
  | nil => intro acc h; simp [preciseLoopPromo, scannedValues]
  | cons line rest ih =>
    intro acc hacc
    simp only [scannedValues] at ih
    simp only [preciseLoopPromo, scannedValues, List.filterMap_cons]
    by_cases hb : jsTrim line = ""
    · simp only [if_pos hb]
      exact ih acc hacc
    · simp only [if_neg hb]
      by_cases hp : promoRowPred headers keyword maxPrice (splitCsvLine line) = true
      · rw [if_pos hp, List.filter_cons_of_pos hp, List.map_cons]
        by_cases hl : limit ≤ (acc ++ [mkPromoProduct headers (splitCsvLine line)]).length
        · rw [if_pos hl]
          rw [List.length_append, List.length_singleton] at hl
          have hlim : limit - acc.length = 0 + 1 := by omega
          rw [hlim, List.take_succ_cons, List.take_zero]
        · rw [if_neg hl]
          have hlt : (acc ++ [mkPromoProduct headers (splitCsvLine line)]).length < limit :=
            Nat.lt_of_not_le hl
          rw [ih _ hlt]
          rw [List.length_append, List.length_singleton] at hl ⊢
          have hlim : limit - acc.length = (limit - (acc.length + 1)) + 1 := by omega
          rw [hlim, List.take_succ_cons, List.append_assoc]
          rfl
      · rw [if_neg hp, List.filter_cons_of_neg hp]
        rw [if_neg (Nat.not_le.mpr hacc)]
        exact ih acc hacc

/-- Kit version of `preciseLoopPromo_characterization`. -/
theorem preciseLoopKits_characterization (headers : List String) (keyword : String)
    (maxPrice : Option DecNum) (limit : Nat) :
    ∀ (lines : List String) (acc : List KitRecord), acc.length < limit →
    preciseLoopKits headers keyword maxPrice limit lines acc =
      acc ++ (((scannedValues lines).filter
        (kitRowPred headers keyword maxPrice)).map
          (mkKitRecord headers)).take (limit - acc.length) := by
  intro lines
  induction lines with
  | nil => intro acc h; simp [preciseLoopKits, scannedValues]
  | cons line rest ih =>
    intro acc hacc
    simp only [scannedValues] at ih
    simp only [preciseLoopKits, scannedValues, List.filterMap_cons]
    by_cases hb : jsTrim line = ""
    · simp only [if_pos hb]
      exact ih acc hacc
    · simp only [if_neg hb]
      by_cases hp : kitRowPred headers keyword maxPrice (splitCsvLine line) = true
      · rw [if_pos hp, List.filter_cons_of_pos hp, List.map_cons]
        by_cases hl : limit ≤ (acc ++ [mkKitRecord headers (splitCsvLine line)]).length
        · rw [if_pos hl]
          rw [List.length_append, List.length_singleton] at hl
          have hlim : limit - acc.length = 0 + 1 := by omega
          rw [hlim, List.take_succ_cons, List.take_zero]
        · rw [if_neg hl]
          have hlt : (acc ++ [mkKitRecord headers (splitCsvLine line)]).length < limit :=
            Nat.lt_of_not_le hl
          rw [ih _ hlt]
          rw [List.length_append, List.length_singleton] at hl ⊢
          have hlim : limit - acc.length = (limit - (acc.length + 1)) + 1 := by omega
          rw [hlim, List.take_succ_cons, List.append_assoc]
          rfl
      · rw [if_neg hp, List.filter_cons_of_neg hp]
        rw [if_neg (Nat.not_le.mpr hacc)]
        exact ih acc hacc

/-- C2 (amended): for every keyword, ceiling and positive limit, each
precise search returns exactly the first `limit` (or fewer) scanned rows
satisfying the keyword-and-price push condition, in dataset scan order —
so it returns at most `limit` records, each satisfying both predicates.
The amendment excludes `limit = 0` (the loop's break check runs only after
a push, so one record can be returned) and notes that a zero ceiling is
falsy in the code and behaves as "no ceiling given" (so records with
unparseable or zero price are returned under a zero ceiling). -/
theorem precise_search_characterization :
    ∀ (data keyword : String) (maxPrice : Option DecNum) (limit : Nat),
    1 ≤ limit →
    (searchPromoProductsPrecise (some data) keyword maxPrice limit =
      (((scannedValues (((csvLines data).take 200).drop 1)).filter
        (promoRowPred (csvHeaders (csvLines data)) keyword maxPrice)).map
          (mkPromoProduct (csvHeaders (csvLines data)))).take limit) ∧
    (searchSuitUpKitsPrecise (some data) keyword maxPrice limit =
      (((scannedValues (((csvLines data).take 100).drop 1)).filter
        (kitRowPred (csvHeaders (csvLines data)) keyword maxPrice)).map
          (mkKitRecord (csvHeaders (csvLines data)))).take limit) := by
  intro data keyword maxPrice limit hlim
  constructor
  · show preciseLoopPromo (csvHeaders (csvLines data)) keyword maxPrice limit
      (((csvLines data).take 200).drop 1) [] = _
    rw [preciseLoopPromo_characterization (csvHeaders (csvLines data)) keyword maxPrice limit
      (((csvLines data).take 200).drop 1) [] (by simpa using hlim)]
    simp
  · show preciseLoopKits (csvHeaders (csvLines data)) keyword maxPrice limit
      (((csvLines data).take 100).drop 1) [] = _
    rw [preciseLoopKits_characterization (csvHeaders (csvLines data)) keyword maxPrice limit
      (((csvLines data).take 100).drop 1) [] (by simpa using hlim)]
    simp

set_option maxRecDepth 400000 in
/-- Spot instance of `precise_search_characterization` on a concrete
dataset with the default limit 3. -/
theorem precise_search_characterization_spot :
    searchPromoProductsPrecise (some "nombre,precio\nTaza,$100\nGorra,$50") "" none 3 =
      (((scannedValues (((csvLines "nombre,precio\nTaza,$100\nGorra,$50").take 200).drop 1)).filter
        (promoRowPred (csvHeaders (csvLines "nombre,precio\nTaza,$100\nGorra,$50")) "" none)).map
          (mkPromoProduct (csvHeaders (csvLines "nombre,precio\nTaza,$100\nGorra,$50")))).take 3 :=
  (precise_search_characterization "nombre,precio\nTaza,$100\nGorra,$50" "" none 3
    (by decide)).1

set_option maxRecDepth 400000 in
/-- C2 counterexample: with `limit = 0` and the (falsy) ceiling `0`, the
precise search returns one record — more than `limit` — and that record's
price text `"abc"` is unparseable, so a record with unparseable price is
returned although a ceiling was given.  Both universally quantified parts
of the claim fail at this input. -/
theorem precise_search_counterexample :
    searchPromoProductsPrecise (some "nombre,precio\nTaza,abc") "" (some ⟨0, 0⟩) 0 =
      [{ sku := "", nombre := "Taza", precio := "abc", descripcion := "",
         categorias := "", imagenes_url := "" }] ∧
    ¬ ((searchPromoProductsPrecise (some "nombre,precio\nTaza,abc") "" (some ⟨0, 0⟩) 0).length ≤ 0) ∧
    parseFloatJS (stripPriceChars "abc") = none := by decide

/-- C10: under a truthy (non-zero) price ceiling, the semantic tier's local
post-parse filter drops a model-selected record only when its parsed price
is positive and strictly above the ceiling, so a selected candidate whose
price is unparseable (NaN) or zero is still returned — while the precise
tier only ever returns records whose parsed price is positive and at most
the ceiling (unknown-price records are excluded there). -/
theorem semantic_vs_precise_unknown_price :
    (∀ (data content keyword : String) (m : DecNum) (limit : Nat)
        (index : Int) (product : PromoProduct),
      m.isZero = false →
      jsIndex (promoCandidates data) index = some product →
      (parseFloatJS (stripPriceChars product.precio) = none ∨
        ∃ price, parseFloatJS (stripPriceChars product.precio) = some price ∧
          price.isZero = true) →
      index ∈ parseIndexReply (some content) →
      product ∈ searchPromoProductsVector (some data) (.ok (some content)) keyword
        (some m) limit) ∧
    (∀ (data content keyword : String) (m : DecNum) (limit : Nat)
        (index : Int) (kit : KitRecord),
      m.isZero = false →
      jsIndex (suitupCandidates data) index = some kit →
      (parseFloatJS (stripPriceChars kit.precio) = none ∨
        ∃ price, parseFloatJS (stripPriceChars kit.precio) = some price ∧
          price.isZero = true) →
      index ∈ parseIndexReply (some content) →
      kit ∈ searchSuitUpKitsVector (some data) (.ok (some content)) keyword
        (some m) limit) ∧
    (∀ (data keyword : String) (m : DecNum) (limit : Nat) (product : PromoProduct),
      m.isZero = false →
      product ∈ searchPromoProductsPrecise (some data) keyword (some m) limit →
      ∃ price, parseFloatJS (stripPriceChars product.precio) = some price ∧
        price.isPos = true ∧ price.ble m = true) := by
  refine ⟨?_, ?_, ?_⟩
  · intro data content keyword m limit index product hm hidx hprice hmem
    have hdrop : vectorPriceDrop (some m) product.precio = false := by
      simp only [vectorPriceDrop, if_neg (by simp [hm] : ¬ m.isZero = true)]
      rcases hprice with h | ⟨price, hp, hz⟩
      · rw [h]
      · rw [hp]
        have : price.isPos = false := by
          simp only [DecNum.isZero, decide_eq_true_eq] at hz
          simp [DecNum.isPos, hz]
        simp [this]
    refine List.mem_filterMap.mpr ⟨index, hmem, ?_⟩
    rw [hidx]
    show (if vectorPriceDrop (some m) product.precio = true then none else some product) = _
    rw [hdrop]
    simp
  · intro data content keyword m limit index kit hm hidx hprice hmem
    have hdrop : vectorPriceDrop (some m) kit.precio = false := by
      simp only [vectorPriceDrop, if_neg (by simp [hm] : ¬ m.isZero = true)]
      rcases hprice with h | ⟨price, hp, hz⟩
      · rw [h]
      · rw [hp]
        have : price.isPos = false := by
          simp only [DecNum.isZero, decide_eq_true_eq] at hz
          simp [DecNum.isPos, hz]
        simp [this]
    refine List.mem_filterMap.mpr ⟨index, hmem, ?_⟩
    rw [hidx]
    show (if vectorPriceDrop (some m) kit.precio = true then none else some kit) = _
    rw [hdrop]
    simp
  · intro data keyword m limit product hm hmem
    have h := mem_preciseLoopPromo (csvHeaders (csvLines data)) keyword (some m) limit
      (((csvLines data).take 200).drop 1) [] product hmem
    rcases h with h | ⟨values, hpred, heq⟩
    · exact absurd h (List.not_mem_nil product)
    · have hwb : withinBudgetJS (some m) (rowField (csvHeaders (csvLines data)) values "precio") = true := by
        simp only [promoRowPred, Bool.and_eq_true] at hpred
        exact hpred.1.2
      have hpe : product.precio = rowField (csvHeaders (csvLines data)) values "precio" := by
        rw [heq]; rfl
      rw [hpe]
      simp only [withinBudgetJS, if_neg (by simp [hm] : ¬ m.isZero = true)] at hwb
      cases hparse : parseFloatJS (stripPriceChars (rowField (csvHeaders (csvLines data)) values "precio")) with
      | none => rw [hparse] at hwb; exact absurd hwb (by simp)
      | some price =>
        rw [hparse] at hwb
        rw [Bool.and_eq_true] at hwb
        exact ⟨price, rfl, hwb.1, hwb.2⟩

set_option maxRecDepth 400000 in
/-- Spot instance of `semantic_vs_precise_unknown_price`: under ceiling 50
the semantic tier returns the selected record with unparseable price
`"abc"`, and under ceiling 200 every precise result has a positive parsed
price below the ceiling. -/
theorem semantic_vs_precise_unknown_price_spot :
    ({ sku := "", nombre := "Taza", precio := "abc", descripcion := "",
       categorias := "", imagenes_url := "" } : PromoProduct) ∈
      searchPromoProductsVector (some "nombre,precio\nTaza,abc") (.ok (some "0")) "x"
        (some ⟨50, 0⟩) 3 ∧
    ∃ price, parseFloatJS (stripPriceChars
        (({ sku := "", nombre := "Taza", precio := "$100", descripcion := "",
            categorias := "", imagenes_url := "" } : PromoProduct)).precio) = some price ∧
      price.isPos = true ∧ price.ble ⟨200, 0⟩ = true :=
  ⟨semantic_vs_precise_unknown_price.1 "nombre,precio\nTaza,abc" "0" "x" ⟨50, 0⟩ 3 0
      { sku := "", nombre := "Taza", precio := "abc", descripcion := "",
        categorias := "", imagenes_url := "" }
      (by decide) (by decide) (Or.inl (by decide)) (by decide),
   semantic_vs_precise_unknown_price.2.2 "nombre,precio\nTaza,$100" "" ⟨200, 0⟩ 3
      { sku := "", nombre := "Taza", precio := "$100", descripcion := "",
        categorias := "", imagenes_url := "" }
      (by decide) (by decide)⟩

/-- Stepping the CSV splitter over a quote character toggles the flag. -/
theorem csvSplitAux_quote (cs : List Char) (values : List String) (current : List Char)
    (inQuotes : Bool) :
    csvSplitAux ('"' :: cs) values current inQuotes =
      csvSplitAux cs values current (!inQuotes) := by
  simp [csvSplitAux]

/-- Stepping the CSV splitter over a delimiter outside quotes closes the
current field. -/
theorem csvSplitAux_comma (cs : List Char) (values : List String) (current : List Char) :
    csvSplitAux (',' :: cs) values current false =
      csvSplitAux cs (values ++ [jsTrim (String.mk current)]) [] false := by
  simp [csvSplitAux]

/-- While the inside-quoted-field flag is set, quote-free characters —
the delimiter included — are only accumulated into the current field. -/
theorem csvSplitAux_inQuotes :
    ∀ (f : List Char), '"' ∉ f →
    ∀ (cs : List Char) (values : List String) (current : List Char),
    csvSplitAux (f ++ cs) values current true = csvSplitAux cs values (current ++ f) true := by
  intro f
  induction f with
  | nil => intro _ cs values current; simp
  | cons c f' ih =>
    intro hf cs values current
    have hc : ¬ c = '"' := fun h => hf (h ▸ List.mem_cons_self c f')
    simp only [List.cons_append, csvSplitAux, if_neg hc]
    rw [if_neg (by simp)]
    have h2 := ih (fun h => hf (List.mem_cons_of_mem c h)) cs values (current ++ [c])
    rw [List.append_assoc] at h2
    exact h2

/-- Processing one whole quoted field from a fresh-field state: the two
quote characters toggle the flag on and off and everything between them —
commas included — lands in the current field. -/
theorem csvSplitAux_quoted_field (f : List Char) (hf : '"' ∉ f) (cs : List Char)
    (values : List String) :
    csvSplitAux ('"' :: (f ++ '"' :: cs)) values [] false =
      csvSplitAux cs values f false := by
  rw [csvSplitAux_quote]
  simp only [Bool.not_false]
  rw [csvSplitAux_inQuotes f hf ('"' :: cs) values []]
  rw [csvSplitAux_quote]
  simp only [Bool.not_true, List.nil_append]

/-- A CSV field wrapped in quote characters. -/
def quoteField (f : String) : String :=
  "\"" ++ f ++ "\""

/-- A comma-joined CSV line of quoted fields. -/
def joinQuoted : List String → String
  | [] => ""
  | [f] => quoteField f
  | f :: g :: rest => quoteField f ++ "," ++ joinQuoted (g :: rest)

/-- The character list of a quoted field. -/
theorem quoteField_toList (f : String) :
    (quoteField f).toList = '"' :: (f.toList ++ ['"']) := by
  show (("\"" ++ f ++ "\"" : String)).data = _
  rw [String.data_append, String.data_append]
  simp [String.toList]

/-- Splitting a line of quoted fields recovers exactly the (trimmed)
fields, appended to the already-closed values. -/
theorem csvSplitAux_joinQuoted :
    ∀ (fields : List String), fields ≠ [] → (∀ f ∈ fields, '"' ∉ f.toList) →
    ∀ (values : List String),
    csvSplitAux (joinQuoted fields).toList values [] false =
      values ++ fields.map jsTrim := by
  intro fields
  induction fields with
  | nil => intro h; exact absurd rfl h
  | cons f rest ih =>
    intro _ hq values
    cases rest with
    | nil =>
      have hlist : (joinQuoted [f]).toList = '"' :: (f.toList ++ '"' :: []) := by
        show (quoteField f).toList = _
        rw [quoteField_toList]
      rw [hlist, csvSplitAux_quoted_field f.toList (hq f (List.mem_cons_self f [])) [] values]
      show values ++ [jsTrim (String.mk f.toList)] = values ++ [jsTrim f]
      rfl
    | cons g rest' =>
      have hlist : (joinQuoted (f :: g :: rest')).toList =
          '"' :: (f.toList ++ '"' :: (',' :: (joinQuoted (g :: rest')).toList)) := by
        show ((quoteField f ++ "," ++ joinQuoted (g :: rest')) : String).data = _
        rw [String.data_append, String.data_append]
        rw [show (quoteField f).data = '"' :: (f.toList ++ ['"']) from quoteField_toList f]
        simp [String.toList]
      rw [hlist, csvSplitAux_quoted_field f.toList (hq f (List.mem_cons_self f _)) _ values]
      rw [csvSplitAux_comma]
      rw [ih (by simp) (fun x hx => hq x (List.mem_cons_of_mem f hx)) _]
      show (values ++ [jsTrim (String.mk f.toList)]) ++ _ = _
      rw [List.append_assoc]
      rfl

/-- C8: the row parser does not split on a delimiter inside a quoted field
(a line of quoted fields — commas inside included — parses back to exactly
those fields, trimmed); a row with fewer values than header columns yields
the empty string for each missing trailing field; and `csvToJsonl` skips
every row whose mandatory name field is missing (its documents all have a
non-empty name). -/
theorem csv_row_parsing :
    (∀ (fields : List String), fields ≠ [] → (∀ f ∈ fields, '"' ∉ f.toList) →
      splitCsvLine (joinQuoted fields) = fields.map jsTrim) ∧
    (∀ (headers values : List String) (name : String) (p : Nat × String),
      (headers.enum.filter (fun q => q.2 = name)).getLast? = some p →
      values.length ≤ p.1 →
      rowField headers values name = "") ∧
    (∀ (data : String) (productType : ProductType) (doc : JsonlDoc),
      doc ∈ csvToJsonl data productType → doc.nombre ≠ "") := by
  refine ⟨?_, ?_, ?_⟩
  · intro fields hne hq
    show csvSplitAux (joinQuoted fields).toList [] [] false = fields.map jsTrim
    rw [csvSplitAux_joinQuoted fields hne hq []]
    rfl
  · intro headers values name p hlast hlen
    simp only [rowField, hlast]
    rw [List.get?_eq_none.mpr hlen]
    rfl
  · intro data productType doc hmem
    simp only [csvToJsonl] at hmem
    rcases List.mem_filterMap.mp hmem with ⟨line, _, hf⟩
    by_cases hb : jsTrim line = ""
    · rw [if_pos hb] at hf
      exact absurd hf (by simp)
    · rw [if_neg hb] at hf
      by_cases hn : rowField (csvHeaders (csvLines data)) (splitCsvLine line) "nombre" = ""
      · rw [if_pos hn] at hf
        exact absurd hf (by simp)
      · rw [if_neg hn] at hf
        cases productType with
        | promo =>
          have : mkPromoDoc (csvHeaders (csvLines data)) (splitCsvLine line) = doc := by
            have := hf
            simpa using this
          rw [← this]
          exact hn
        | suitup =>
          have : mkSuitupDoc (csvHeaders (csvLines data)) (splitCsvLine line) = doc := by
            have := hf
            simpa using this
          rw [← this]
          exact hn

set_option maxRecDepth 400000 in
/-- Spot instance of `csv_row_parsing`: a quoted field containing the
delimiter survives as one field; the second header of a one-value row
reads as the empty string; and a concrete `csvToJsonl` document has a
non-empty name. -/
theorem csv_row_parsing_spot :
    splitCsvLine (joinQuoted ["a,b", "c"]) = ["a,b", "c"].map jsTrim ∧
    rowField ["nombre", "precio"] ["Taza"] "precio" = "" ∧
    ∀ doc ∈ csvToJsonl "nombre\nTaza\n\nx" ProductType.promo, doc.nombre ≠ "" :=
  ⟨csv_row_parsing.1 ["a,b", "c"] (by decide) (by decide),
   csv_row_parsing.2.1 ["nombre", "precio"] ["Taza"] "precio" (1, "precio")
     (by decide) (by decide),
   fun doc hmem => csv_row_parsing.2.2 "nombre\nTaza\n\nx" ProductType.promo doc hmem⟩

/-- C5 (amended): for every request that creates a new conversation (no
conversation id supplied, or an unknown id, so the lookup yields nothing)
whose message is empty or case-insensitively contains a greeting token
(`hola` / `hello`), the recorded reply is exactly the
`DISPLAY_BUSINESS_SELECTOR` sentinel attributed to the Triage agent, the
current agent is the Triage agent, and no language-model call is made.
The amendment restricts the rule to requests that create the conversation:
on an existing conversation the greeting check is skipped, and a new
conversation with a non-greeting message falls through to the ordinary
branches. -/
theorem greeting_sentinel :
    ∀ (promoCsv suitupCsv : Option String) (dialogue : Option String)
      (semCompletion : Except Unit (Option String))
      (eventId newConvId newEventId message : String),
    (message == "" || jsIncludes (jsToLower message) "hola" ||
      jsIncludes (jsToLower message) "hello") = true →
    handleRequest promoCsv suitupCsv dialogue semCompletion eventId newConvId newEventId
        none message =
      ({ initialConversation newConvId newEventId with
          messages := [{ content := "DISPLAY_BUSINESS_SELECTOR", agent := "Triage Agent" }] },
       0) := by
  intro promoCsv suitupCsv dialogue semCompletion eventId newConvId newEventId message h
  simp only [handleRequest, if_pos h]
  rfl

set_option maxRecDepth 400000 in
/-- Spot instance of `greeting_sentinel` at the greeting message `Hola`. -/
theorem greeting_sentinel_spot :
    handleRequest none none (some "model reply") (.ok none) "e1" "c0" "e0" none "Hola" =
      ({ initialConversation "c0" "e0" with
          messages := [{ content := "DISPLAY_BUSINESS_SELECTOR", agent := "Triage Agent" }] },
       0) :=
  greeting_sentinel none none (some "model reply") (.ok none) "e1" "c0" "e0" "Hola"
    (by decide)

set_option maxRecDepth 400000 in
/-- C5 counterexample: a request with no conversation id whose message
contains no greeting token records the language model's reply (not the
sentinel) and makes one completion call, so "no conversation id supplied →
sentinel reply and no model call" is false as stated. -/
theorem greeting_sentinel_counterexample :
    ((handleRequest none none (some "model reply") (.ok none) "e1" "c0" "e0" none
        "necesito tazas").1).messages =
      [{ content := "model reply", agent := "Triage Agent" }] ∧
    ((handleRequest none none (some "model reply") (.ok none) "e1" "c0" "e0" none
        "necesito tazas").1).messages ≠
      [{ content := "DISPLAY_BUSINESS_SELECTOR", agent := "Triage Agent" }] ∧
    (handleRequest none none (some "model reply") (.ok none) "e1" "c0" "e0" none
        "necesito tazas").2 = 1 := by
  decide

/-- C6 (amended): for every message handled past the new-conversation
greeting check that case-insensitively contains `promoselect`, the handler
sets the business unit, switches the current agent to the Promoselect
agent, appends the fixed welcome message and exactly one handoff event,
and makes no language-model call.  The symmetric rule for `suitup` holds
provided the message does not also contain `promoselect` (the promoselect
branch is checked first and wins). -/
theorem unit_selection_branches :
    ∀ (promoCsv suitupCsv : Option String) (dialogue : Option String)
      (semCompletion : Except Unit (Option String)) (eventId : String)
      (conversation : ConversationState) (message : String),
    (jsIncludes (jsToLower message) "promoselect" = true →
      handleSelectionOrChat promoCsv suitupCsv dialogue semCompletion eventId
          conversation message =
        ({ conversation with
            context := { conversation.context with business_unit := some "promoselect" }
            current_agent := "Promoselect Agent"
            messages := conversation.messages ++
              [{ content := welcomePromoselect, agent := "Promoselect Agent" }]
            events := conversation.events ++
              [{ id := eventId, type := "handoff", agent := "Promoselect Agent",
                 content := "Switched to Promoselect Agent" }] }, 0)) ∧
    (jsIncludes (jsToLower message) "suitup" = true →
      jsIncludes (jsToLower message) "promoselect" = false →
      handleSelectionOrChat promoCsv suitupCsv dialogue semCompletion eventId
          conversation message =
        ({ conversation with
            context := { conversation.context with business_unit := some "suitup" }
            current_agent := "SuitUp Agent"
            messages := conversation.messages ++
              [{ content := welcomeSuitup, agent := "SuitUp Agent" }]
            events := conversation.events ++
              [{ id := eventId, type := "handoff", agent := "SuitUp Agent",
                 content := "Switched to SuitUp Agent" }] }, 0)) := by
  intro promoCsv suitupCsv dialogue semCompletion eventId conversation message
  constructor
  · intro h
    simp only [handleSelectionOrChat, if_pos h]
  · intro hs hp
    simp only [handleSelectionOrChat, hp, Bool.false_eq_true, if_false, if_pos hs]

set_option maxRecDepth 400000 in
/-- Spot instance of `unit_selection_branches` on a concrete conversation. -/
theorem unit_selection_branches_spot :
    handleSelectionOrChat none none none (.ok none) "e1"
        (initialConversation "c0" "e0") "quiero promoselect" =
      ({ initialConversation "c0" "e0" with
          context := { (initialConversation "c0" "e0").context with
            business_unit := some "promoselect" }
          current_agent := "Promoselect Agent"
          messages := [{ content := welcomePromoselect, agent := "Promoselect Agent" }]
          events := (initialConversation "c0" "e0").events ++
            [{ id := "e1", type := "handoff", agent := "Promoselect Agent",
               content := "Switched to Promoselect Agent" }] }, 0) :=
  (unit_selection_branches none none none (.ok none) "e1"
    (initialConversation "c0" "e0") "quiero promoselect").1 (by decide)

set_option maxRecDepth 400000 in
/-- C6 counterexample: a message containing the unit-B token `suitup` (as
well as `promoselect`) does not switch to the SuitUp agent — the
promoselect branch is checked first — so the claimed symmetric rule for
the unit-B token is false as stated. -/
theorem unit_selection_counterexample :
    jsIncludes (jsToLower "necesito suitup y promoselect") "suitup" = true ∧
    ((handleSelectionOrChat none none none (.ok none) "e1"
        (initialConversation "c0" "e0") "necesito suitup y promoselect").1).current_agent =
      "Promoselect Agent" ∧
    ((handleSelectionOrChat none none none (.ok none) "e1"
        (initialConversation "c0" "e0") "necesito suitup y promoselect").1).current_agent ≠
      "SuitUp Agent" ∧
    ((handleSelectionOrChat none none none (.ok none) "e1"
        (initialConversation "c0" "e0") "necesito suitup y promoselect").1).context.business_unit =
      some "promoselect" := by
  decide

/-- C4: on the free-form path (the message contains neither selector
token) of a conversation whose business unit, description slot and budget
slot are all already truthy, the recorded reply is exactly the hybrid
retrieval output with the stored description as keyword and the numeric
parse of the stored budget as price ceiling — the dialogue completion's
reply does not occur in the result, i.e. it is discarded.  (One dialogue
completion call is still made before being discarded, plus the hybrid
path's own calls.) -/
theorem ready_to_search_reply :
    ∀ (promoCsv suitupCsv : Option String) (dialogue : Option String)
      (semCompletion : Except Unit (Option String)) (eventId : String)
      (conversation : ConversationState) (message d p : String),
    jsIncludes (jsToLower message) "promoselect" = false →
    jsIncludes (jsToLower message) "suitup" = false →
    conversation.context.descripcion = some d → d ≠ "" →
    conversation.context.precio = some p → p ≠ "" →
    (conversation.context.business_unit = some "promoselect" →
      handleSelectionOrChat promoCsv suitupCsv dialogue semCompletion eventId
          conversation message =
        ({ conversation with
            messages := conversation.messages ++
              [{ content := searchAndFormatProducts promoCsv semCompletion d
                   (parseFloatJS (digitsOnly p)) 3,
                 agent := conversation.current_agent }] },
         1 + hybridCallsProducts promoCsv d (parseFloatJS (digitsOnly p)) 3)) ∧
    (conversation.context.business_unit = some "suitup" →
      handleSelectionOrChat promoCsv suitupCsv dialogue semCompletion eventId
          conversation message =
        ({ conversation with
            messages := conversation.messages ++
              [{ content := searchAndFormatKits suitupCsv semCompletion d
                   (parseFloatJS (digitsOnly p)) 3,
                 agent := conversation.current_agent }] },
         1 + hybridCallsKits suitupCsv d (parseFloatJS (digitsOnly p)) 3)) := by
  intro promoCsv suitupCsv dialogue semCompletion eventId conversation message d p
    hp hs hd hdne hpr hprne
  have h1 : (d == "") = false := beq_eq_false_iff_ne.mpr hdne
  have h2 : (p == "") = false := beq_eq_false_iff_ne.mpr hprne
  constructor
  · intro hb
    simp only [handleSelectionOrChat, hp, hs, Bool.false_eq_true, if_false, hb, hd, hpr,
      jsFalsyOptStr, h1, h2, Option.getD_some]
    simp
  · intro hb
    simp only [handleSelectionOrChat, hp, hs, Bool.false_eq_true, if_false, hb, hd, hpr,
      jsFalsyOptStr, h1, h2, Option.getD_some]
    simp

set_option maxRecDepth 400000 in
/-- Spot instance of `ready_to_search_reply`: with unit `promoselect`,
description `tazas` and budget `100` already stored, an unrelated message
records the hybrid retrieval output, not the model's free-form reply. -/
theorem ready_to_search_reply_spot :
    handleSelectionOrChat none none (some "free reply") (.ok none) "e1"
        { conversation_id := "c0", current_agent := "Promoselect Agent",
          context := { business_unit := some "promoselect", customer_name := none,
                       selected_products := [], descripcion := some "tazas",
                       precio := some "100" },
          messages := [], events := [] } "ok" =
      ({ conversation_id := "c0", current_agent := "Promoselect Agent",
         context := { business_unit := some "promoselect", customer_name := none,
                      selected_products := [], descripcion := some "tazas",
                      precio := some "100" },
         messages := [{ content := searchAndFormatProducts none (.ok none) "tazas"
                          (parseFloatJS (digitsOnly "100")) 3,
                        agent := "Promoselect Agent" }],
         events := [] },
       1 + hybridCallsProducts none "tazas" (parseFloatJS (digitsOnly "100")) 3) :=
  (ready_to_search_reply none none (some "free reply") (.ok none) "e1"
    { conversation_id := "c0", current_agent := "Promoselect Agent",
      context := { business_unit := some "promoselect", customer_name := none,
                   selected_products := [], descripcion := some "tazas",
                   precio := some "100" },
      messages := [], events := [] } "ok" "tazas" "100"
    (by decide) (by decide) rfl (by decide) rfl (by decide)).1 rfl

/-- A digit run matched by `match(/(\d+)/)` is never the empty string. -/
theorem firstDigitRunAux_ne_empty :
    ∀ (cs : List Char) (r : String), firstDigitRunAux cs = some r → r ≠ "" := by
  intro cs
  induction cs with
  | nil => intro r h; exact absurd h (by simp [firstDigitRunAux])
  | cons c rest ih =>
    intro r h
    simp only [firstDigitRunAux] at h
    by_cases hc : c.isDigit = true
    · rw [if_pos hc] at h
      have hr : r = String.mk ((c :: rest).takeWhile Char.isDigit) := by
        injection h with h'
        exact h'.symm
      rw [List.takeWhile_cons, if_pos hc] at hr
      rw [hr]
      intro hcon
      have := congrArg String.data hcon
      simp at this
    · rw [if_neg hc] at h
      exact ih r h

/-- A message stored as a description (length above the threshold) is never
the empty string. -/
theorem long_message_ne_empty (message : String) (h : 3 < message.length) :
    message ≠ "" := by
  intro hcon
  rw [hcon] at h
  simp at h

/-- The slot-extraction fallback never touches the business unit. -/
theorem extractSlots_business_unit (ctx : ConversationContext) (message : String) :
    (extractSlots ctx message).business_unit = ctx.business_unit := by
  simp only [extractSlots]
  split <;> (try split) <;> (try split) <;> rfl

/-- The description after slot extraction: the whole message when the
stored description was falsy and the message is long enough, otherwise the
stored value. -/
theorem extractSlots_descripcion_eq (ctx : ConversationContext) (message : String) :
    (extractSlots ctx message).descripcion =
      (if (jsFalsyOptStr ctx.descripcion && decide (3 < message.length)) = true
       then some message else ctx.descripcion) := by
  simp only [extractSlots]
  split <;> (try split) <;> (try split) <;> simp_all

/-- The budget after slot extraction: the message's first digit run when
there is one and the stored budget was falsy, otherwise the stored value. -/
theorem extractSlots_precio_eq (ctx : ConversationContext) (message : String) :
    (extractSlots ctx message).precio =
      (match firstDigitRun message with
       | none => ctx.precio
       | some run => if jsFalsyOptStr ctx.precio = true then some run else ctx.precio) := by
  simp only [extractSlots]
  by_cases hA : (jsFalsyOptStr ctx.descripcion && decide (3 < message.length)) = true <;>
    simp only [hA, Bool.false_eq_true, if_true, if_false] <;>
    cases firstDigitRun message
  all_goals try rfl
  all_goals try simp_all
  all_goals rw [apply_ite (fun c : ConversationContext => c.precio)]

/-- The slot-extraction fallback never overwrites a truthy description. -/
theorem extractSlots_keeps_descripcion (ctx : ConversationContext) (message : String)
    (d : String) (hd : ctx.descripcion = some d) (hdne : d ≠ "") :
    (extractSlots ctx message).descripcion = some d := by
  rw [extractSlots_descripcion_eq]
  rw [hd]
  simp only [jsFalsyOptStr, beq_eq_false_iff_ne.mpr hdne, Bool.false_and,
    Bool.false_eq_true, if_false]

/-- The slot-extraction fallback never overwrites a truthy budget. -/
theorem extractSlots_keeps_precio (ctx : ConversationContext) (message : String)
    (p : String) (hp : ctx.precio = some p) (hpne : p ≠ "") :
    (extractSlots ctx message).precio = some p := by
  rw [extractSlots_precio_eq]
  cases firstDigitRun message with
  | none => exact hp
  | some run =>
    rw [hp]
    simp only [jsFalsyOptStr, beq_eq_false_iff_ne.mpr hpne, Bool.false_eq_true, if_false]

/-- Any description after slot extraction is the stored one or the whole
current message (stored only when the message exceeds the threshold). -/
theorem extractSlots_descripcion_source (ctx : ConversationContext) (message : String)
    (d : String) (hd : (extractSlots ctx message).descripcion = some d) :
    ctx.descripcion = some d ∨ (d = message ∧ 3 < message.length) := by
  rw [extractSlots_descripcion_eq] at hd
  by_cases hA : (jsFalsyOptStr ctx.descripcion && decide (3 < message.length)) = true
  · rw [if_pos hA] at hd
    injection hd with h'
    exact Or.inr ⟨h'.symm, of_decide_eq_true (Bool.and_elim_right hA)⟩
  · rw [if_neg hA] at hd
    exact Or.inl hd

/-- Any budget after slot extraction is the stored one or the first digit
run of the current message. -/
theorem extractSlots_precio_source (ctx : ConversationContext) (message : String)
    (p : String) (hp : (extractSlots ctx message).precio = some p) :
    ctx.precio = some p ∨ firstDigitRun message = some p := by
  rw [extractSlots_precio_eq] at hp
  cases hfd : firstDigitRun message with
  | none => rw [hfd] at hp; exact Or.inl hp
  | some run =>
    rw [hfd] at hp
    have hp' : (if jsFalsyOptStr ctx.precio = true then some run else ctx.precio) =
        some p := hp
    by_cases hP : jsFalsyOptStr ctx.precio = true
    · rw [if_pos hP] at hp'
      exact Or.inr hp' 
    · rw [if_neg hP] at hp'
      exact Or.inl hp' 

/-- Stored description and budget values are never the empty string. -/
def SlotsWF (st : ConversationState) : Prop :=
  (∀ d, st.context.descripcion = some d → d ≠ "") ∧
  (∀ p, st.context.precio = some p → p ≠ "")

/-- One message step preserves slot well-formedness, never changes a
stored (truthy) description or budget, and never clears the business
unit. -/
theorem handleSelectionOrChat_slots (promoCsv suitupCsv : Option String)
    (dialogue : Option String) (semCompletion : Except Unit (Option String))
    (eventId : String) (st : ConversationState) (message : String) (hwf : SlotsWF st) :
    SlotsWF (handleSelectionOrChat promoCsv suitupCsv dialogue semCompletion eventId
      st message).1 ∧
    (∀ d, st.context.descripcion = some d →
      (handleSelectionOrChat promoCsv suitupCsv dialogue semCompletion eventId
        st message).1.context.descripcion = some d) ∧
    (∀ p, st.context.precio = some p →
      (handleSelectionOrChat promoCsv suitupCsv dialogue semCompletion eventId
        st message).1.context.precio = some p) ∧
    (st.context.business_unit.isSome = true →
      (handleSelectionOrChat promoCsv suitupCsv dialogue semCompletion eventId
        st message).1.context.business_unit.isSome = true) := by
  by_cases h1 : jsIncludes (jsToLower message) "promoselect" = true
  · simp only [handleSelectionOrChat, if_pos h1]
    exact ⟨⟨hwf.1, hwf.2⟩, fun d hd => hd, fun p hp => hp, fun _ => rfl⟩
  · by_cases h2 : jsIncludes (jsToLower message) "suitup" = true
    · simp only [handleSelectionOrChat, if_neg h1, if_pos h2]
      exact ⟨⟨hwf.1, hwf.2⟩, fun d hd => hd, fun p hp => hp, fun _ => rfl⟩
    · simp only [handleSelectionOrChat, if_neg h1, if_neg h2]
      by_cases h3 : (!jsFalsyOptStr st.context.business_unit &&
          !jsFalsyOptStr st.context.descripcion &&
          !jsFalsyOptStr st.context.precio) = true
      · rw [if_pos h3]
        exact ⟨⟨hwf.1, hwf.2⟩, fun d hd => hd, fun p hp => hp, fun h => h⟩
      · rw [if_neg h3]
        refine ⟨⟨?_, ?_⟩, ?_, ?_, ?_⟩
        · intro d hd
          rcases extractSlots_descripcion_source st.context message d hd with h | ⟨hdm, hlen⟩
          · exact hwf.1 d h
          · exact hdm ▸ long_message_ne_empty message hlen
        · intro p hp
          rcases extractSlots_precio_source st.context message p hp with h | h
          · exact hwf.2 p h
          · exact firstDigitRunAux_ne_empty message.toList p h
        · intro d hd
          exact extractSlots_keeps_descripcion st.context message d hd (hwf.1 d hd)
        · intro p hp
          exact extractSlots_keeps_precio st.context message p hp (hwf.2 p hp)
        · intro hbu
          show (extractSlots st.context message).business_unit.isSome = true
          rw [extractSlots_business_unit]
          exact hbu

/-- Folding further requests over a conversation preserves slot
well-formedness, stored slot values, and a set business unit. -/
theorem runConversation_fold_slots (promoCsv suitupCsv : Option String)
    (newConvId newEventId : String) :
    ∀ (inps : List StepInput) (st : ConversationState), SlotsWF st →
    SlotsWF (inps.foldl
      (fun st inp =>
        (handleRequest promoCsv suitupCsv inp.dialogue inp.semCompletion inp.eventId
          newConvId newEventId (some st) inp.message).1) st) ∧
    (∀ d, st.context.descripcion = some d →
      (inps.foldl
        (fun st inp =>
          (handleRequest promoCsv suitupCsv inp.dialogue inp.semCompletion inp.eventId
            newConvId newEventId (some st) inp.message).1) st).context.descripcion = some d) ∧
    (∀ p, st.context.precio = some p →
      (inps.foldl
        (fun st inp =>
          (handleRequest promoCsv suitupCsv inp.dialogue inp.semCompletion inp.eventId
            newConvId newEventId (some st) inp.message).1) st).context.precio = some p) ∧
    (st.context.business_unit.isSome = true →
      (inps.foldl
        (fun st inp =>
          (handleRequest promoCsv suitupCsv inp.dialogue inp.semCompletion inp.eventId
            newConvId newEventId (some st) inp.message).1) st).context.business_unit.isSome =
        true) := by
  intro inps
  induction inps with
  | nil => intro st h; exact ⟨h, fun d hd => hd, fun p hp => hp, fun h => h⟩
  | cons inp rest ih =>
    intro st hwf
    simp only [List.foldl_cons]
    have hstep := handleSelectionOrChat_slots promoCsv suitupCsv inp.dialogue
      inp.semCompletion inp.eventId st inp.message hwf
    have hrest := ih (handleSelectionOrChat promoCsv suitupCsv inp.dialogue
      inp.semCompletion inp.eventId st inp.message).1 hstep.1
    exact ⟨hrest.1,
      fun d hd => hrest.2.1 d (hstep.2.1 d hd),
      fun p hp => hrest.2.2.1 p (hstep.2.2.1 p hp),
      fun h => hrest.2.2.2 (hstep.2.2.2 h)⟩

/-- The state reached by the conversation-creating request is slot
well-formed. -/
theorem initial_request_slots (promoCsv suitupCsv : Option String)
    (dialogue : Option String) (semCompletion : Except Unit (Option String))
    (eventId newConvId newEventId message : String) :
    SlotsWF (handleRequest promoCsv suitupCsv dialogue semCompletion eventId newConvId
      newEventId none message).1 := by
  have hinit : SlotsWF (initialConversation newConvId newEventId) :=
    ⟨fun d hd => absurd hd (by simp [initialConversation]),
     fun p hp => absurd hp (by simp [initialConversation])⟩
  simp only [handleRequest]
  by_cases hg : (message == "" || jsIncludes (jsToLower message) "hola" ||
      jsIncludes (jsToLower message) "hello") = true
  · rw [if_pos hg]
    exact ⟨hinit.1, hinit.2⟩
  · rw [if_neg hg]
    exact (handleSelectionOrChat_slots promoCsv suitupCsv dialogue semCompletion eventId
      (initialConversation newConvId newEventId) message hinit).1

/-- C3: along every conversation (created by `first`, then updated by the
later requests), the description and budget slots are set at most once —
a stored value is still stored after any further requests — and once the
business unit is set it is never cleared. -/
theorem conversation_slots_monotone :
    ∀ (promoCsv suitupCsv : Option String) (newConvId newEventId : String)
      (first : StepInput) (rest more : List StepInput) (d p : String),
    ((runConversation promoCsv suitupCsv newConvId newEventId first
        rest).context.descripcion = some d →
      (runConversation promoCsv suitupCsv newConvId newEventId first
        (rest ++ more)).context.descripcion = some d) ∧
    ((runConversation promoCsv suitupCsv newConvId newEventId first
        rest).context.precio = some p →
      (runConversation promoCsv suitupCsv newConvId newEventId first
        (rest ++ more)).context.precio = some p) ∧
    ((runConversation promoCsv suitupCsv newConvId newEventId first
        rest).context.business_unit.isSome = true →
      (runConversation promoCsv suitupCsv newConvId newEventId first
        (rest ++ more)).context.business_unit.isSome = true) := by
  intro promoCsv suitupCsv newConvId newEventId first rest more d p
  have hbase := initial_request_slots promoCsv suitupCsv first.dialogue first.semCompletion
    first.eventId newConvId newEventId first.message
  have hrest := runConversation_fold_slots promoCsv suitupCsv newConvId newEventId rest
    (handleRequest promoCsv suitupCsv first.dialogue first.semCompletion first.eventId
      newConvId newEventId none first.message).1 hbase
  have hmore := runConversation_fold_slots promoCsv suitupCsv newConvId newEventId more
    (List.foldl
      (fun st inp =>
        (handleRequest promoCsv suitupCsv inp.dialogue inp.semCompletion inp.eventId
          newConvId newEventId (some st) inp.message).1)
      (handleRequest promoCsv suitupCsv first.dialogue first.semCompletion first.eventId
        newConvId newEventId none first.message).1 rest) hrest.1
  simp only [runConversation, List.foldl_append]
  exact ⟨fun h => hmore.2.1 d h, fun h => hmore.2.2.1 p h, fun h => hmore.2.2.2 h⟩

set_option maxRecDepth 400000 in
/-- Spot instance of `conversation_slots_monotone`: after selecting the
unit and sending `tazas 100` (which fills both slots), a further message
leaves the description, the budget, and the business unit in place. -/
theorem conversation_slots_monotone_spot :
    (runConversation none none "c0" "e0"
      { message := "promoselect", dialogue := some "r1", semCompletion := .ok none,
        eventId := "e1" }
      [{ message := "tazas 100", dialogue := some "r2", semCompletion := .ok none,
         eventId := "e2" }]).context.descripcion = some "tazas 100" ∧
    (runConversation none none "c0" "e0"
      { message := "promoselect", dialogue := some "r1", semCompletion := .ok none,
        eventId := "e1" }
      ([{ message := "tazas 100", dialogue := some "r2", semCompletion := .ok none,
          eventId := "e2" }] ++
       [{ message := "otro", dialogue := some "r3", semCompletion := .ok none,
          eventId := "e3" }])).context.descripcion = some "tazas 100" ∧
    (runConversation none none "c0" "e0"
      { message := "promoselect", dialogue := some "r1", semCompletion := .ok none,
        eventId := "e1" }
      ([{ message := "tazas 100", dialogue := some "r2", semCompletion := .ok none,
          eventId := "e2" }] ++
       [{ message := "otro", dialogue := some "r3", semCompletion := .ok none,
          eventId := "e3" }])).context.precio = some "100" ∧
    (runConversation none none "c0" "e0"
      { message := "promoselect", dialogue := some "r1", semCompletion := .ok none,
        eventId := "e1" }
      ([{ message := "tazas 100", dialogue := some "r2", semCompletion := .ok none,
          eventId := "e2" }] ++
       [{ message := "otro", dialogue := some "r3", semCompletion := .ok none,
          eventId := "e3" }])).context.business_unit.isSome = true :=
  ⟨by decide,
   (conversation_slots_monotone none none "c0" "e0"
      { message := "promoselect", dialogue := some "r1", semCompletion := .ok none,
        eventId := "e1" }
      [{ message := "tazas 100", dialogue := some "r2", semCompletion := .ok none,
         eventId := "e2" }]
      [{ message := "otro", dialogue := some "r3", semCompletion := .ok none,
         eventId := "e3" }] "tazas 100" "100").1 (by decide),
   (conversation_slots_monotone none none "c0" "e0"
      { message := "promoselect", dialogue := some "r1", semCompletion := .ok none,
        eventId := "e1" }
      [{ message := "tazas 100", dialogue := some "r2", semCompletion := .ok none,
         eventId := "e2" }]
      [{ message := "otro", dialogue := some "r3", semCompletion := .ok none,
         eventId := "e3" }] "tazas 100" "100").2.1 (by decide),
   (conversation_slots_monotone none none "c0" "e0"
      { message := "promoselect", dialogue := some "r1", semCompletion := .ok none,
        eventId := "e1" }
      [{ message := "tazas 100", dialogue := some "r2", semCompletion := .ok none,
         eventId := "e2" }]
      [{ message := "otro", dialogue := some "r3", semCompletion := .ok none,
         eventId := "e3" }] "tazas 100" "100").2.2 (by decide)⟩
